import Mathlib

/-!
Verification development for the `panhinda` repository: a React component
library meant to let a static site gain inline, authenticated content
editing.  The repository contains the `Editable` component
(`src/panhinda/src/Editable.tsx`), a build configuration, and a design
README (`src/Readme.md`) whose sample code sketches the intended
`CMSProvider` context.  The ContentStore described by the specification is
not implemented anywhere in the repository; where a claim depends on it,
the corresponding definition is modelled from the specification and marked
as such in its doc comment.
-/

namespace Panhinda

/-! ## DOM / markup model

A small model of the React element trees the library produces.  An element
node carries a tag name, an attribute list (name/value pairs; React event
handlers such as `onClick` appear here as attributes whose name starts with
`on`), and a list of child nodes. -/

/-- A rendered markup node: either a text node or an element with a tag,
attributes, and children. -/
inductive Html where
  | text (s : String)
  | elem (tag : String) (attrs : List (String × String)) (children : List Html)
deriving Repr

/-- The tag of an element node, if the node is an element. -/
def Html.tagOf : Html → Option String
  | .text _ => none
  | .elem t _ _ => some t

/-- The attribute list of a node (text nodes have none). -/
def Html.attrsOf : Html → List (String × String)
  | .text _ => []
  | .elem _ attrs _ => attrs

/-- The children of a node (text nodes have none). -/
def Html.childrenOf : Html → List Html
  | .text _ => []
  | .elem _ _ cs => cs

/-- Look up an attribute value by name. -/
def attrValue (attrs : List (String × String)) (name : String) : Option String :=
  attrs.lookup name

/-- An attribute makes a node interactive / an editing affordance if it is a
DOM event handler (React handler props start with `on`) or marks the node
contentEditable. -/
def attrIsInteractive (name : String) : Bool :=
  (match name.data with
   | 'o' :: 'n' :: _ => true
   | _ => false)
  || name == "contentEditable" || name == "contenteditable"

/-- A markup tree is static (plain, non-interactive) when no node in it
carries an interactive attribute. -/
inductive IsStatic : Html → Prop
  | text (s : String) : IsStatic (.text s)
  | elem (t : String) (attrs : List (String × String)) (cs : List Html)
      (hattrs : ∀ a ∈ attrs, attrIsInteractive a.1 = false)
      (hcs : ∀ c ∈ cs, IsStatic c) :
      IsStatic (.elem t attrs cs)

/-! ## The `Editable` component (src/panhinda/src/Editable.tsx)

```tsx
export const Editable = ({ id, children }: { id: string, children: React.ReactNode }) => {
  // Your logic here
  return <div data-cms-id={id}>{children}</div>;
};
```

The component is a function of its two props alone; its body contains the
placeholder comment `// Your logic here` and returns a `div` tagged with
`data-cms-id`, containing the supplied children unchanged.  It consults no
context and no store. -/

/-- The `Editable` component from `src/panhinda/src/Editable.tsx`: renders a
single `div` carrying `data-cms-id={id}` around the supplied children. -/
def Editable (id : String) (children : List Html) : Html :=
  .elem "div" [("data-cms-id", id)] children

/-- Following the spec's words ("publicly indistinguishable from static
markup"): the static markup for a content region is a plain `div` carrying
the region id, with the given children.  Refinement target for comparing
`Editable`'s output against static markup. -/
def staticMarkup (id : String) (children : List Html) : Html :=
  .elem "div" [("data-cms-id", id)] children

/-- The context value the README's `CMSProvider` supplies to its subtree
(`src/Readme.md` line 126): the current user, the edit-mode flag, and the
mode setter (the setter is modelled by the `setEditMode` event below). -/
structure CMSContextValue where
  user : Option String
  isEditMode : Bool
deriving Repr, DecidableEq

/-- `Editable` as rendered under a surrounding `CMSProvider` context: the
component's source references only its props, never the context, so the
render ignores `ctx`. -/
def renderEditable (_ctx : CMSContextValue) (id : String) (children : List Html) : Html :=
  Editable id children

/-! ## The README's `CMSProvider` (src/Readme.md lines 107–134)

```jsx
export const CMSProvider = ({ children }) => {
  const [user, setUser] = useState(null);
  const [isEditMode, setIsEditMode] = useState(false);

  useEffect(() => {
    supabase.auth.getSession().then(({ data: { session } }) => {
      setUser(session?.user ?? null);
    });
    const { data: { subscription } } = supabase.auth.onAuthStateChange((_event, session) => {
      setUser(session?.user ?? null);
    });
    return () => subscription.unsubscribe();
  }, []);

  return (
    <CMSContext.Provider value={{ user, isEditMode, setIsEditMode }}>
      {children}
      {!user && <AdminLoginButton />}
      {user && <EditToggle onToggle={() => setIsEditMode(!isEditMode)} />}
    </CMSContext.Provider>
  );
};
```

State: `user` (null initially) and `isEditMode` (false initially).  Auth
change events (initial `getSession` resolution and `onAuthStateChange`
callbacks) replace `user`.  The context value exposes `setIsEditMode`
unconditionally to every consumer.  The `EditToggle` control, whose
`onToggle` flips `isEditMode`, is rendered only while `user` is present, so
a click event on it can only occur in a state with a user.  Nothing in the
component resets `isEditMode` when `user` becomes null. -/

/-- The state the README's `CMSProvider` holds: `user` (line 108) and
`isEditMode` (line 109). -/
structure CMSProviderState where
  user : Option String
  isEditMode : Bool
deriving Repr, DecidableEq

/-- Initial provider state: `useState(null)` and `useState(false)`. -/
def CMSProviderState.init : CMSProviderState :=
  { user := none, isEditMode := false }

/-- Events the README's `CMSProvider` reacts to:
* `authChange session` — `getSession` resolution or an `onAuthStateChange`
  callback; both run `setUser(session?.user ?? null)` (lines 113–121);
* `setEditMode b` — a consumer calls the `setIsEditMode` exposed in the
  context value (line 126);
* `toggleClick` — a click on the `EditToggle` control (line 131). -/
inductive CMSProviderEvent where
  | authChange (session : Option String)
  | setEditMode (b : Bool)
  | toggleClick
deriving Repr, DecidableEq

/-- The body of the `EditToggle`'s `onToggle` callback (line 131):
`setIsEditMode(!isEditMode)`.  The callback itself performs no identity
check. -/
def onToggle (s : CMSProviderState) : CMSProviderState :=
  { s with isEditMode := !s.isEditMode }

/-- One step of the README's `CMSProvider`.  `toggleClick` takes effect only
when `user` is present because the `EditToggle` element exists in the tree
only then (`{user && <EditToggle … />}`, line 131); `setEditMode` is
unguarded because the raw setter sits in the context value (line 126). -/
def cmsStep (s : CMSProviderState) : CMSProviderEvent → CMSProviderState
  | .authChange session => { s with user := session }
  | .setEditMode b => { s with isEditMode := b }
  | .toggleClick => if s.user.isSome then onToggle s else s

/-- Run the README's `CMSProvider` from its initial state over a sequence of
events. -/
def cmsRun (events : List CMSProviderEvent) : CMSProviderState :=
  events.foldl cmsStep .init

/-! ## ContentStore (modelled from the spec)

The repository implements no ContentStore: spec §1 states the persistence
logic is "described only in prose/sample code and not built", and no source
file contains `get`/`set` code.  The definitions below are therefore
modelled from spec §3 and §4.3. -/

/-- Modelled from the spec: a ContentRecord is
`{ id, value: arbitrary structured content, lastUpdated: timestamp }` (§3);
the id is the key of the cache mapping, the value is modelled as a string. -/
structure ContentRecord where
  value : String
  lastUpdated : Nat
deriving Repr, DecidableEq

/-- Modelled from the spec: the ContentStore cache, a mapping
id → ContentRecord (§3), as an association list. -/
structure ContentStore where
  cache : List (String × ContentRecord)
deriving Repr, DecidableEq

/-- Modelled from the spec: the EditModeController's mode,
`viewing | editing` (§4.2); `set` consults it. -/
inductive Mode where
  | viewing
  | editing
deriving Repr, DecidableEq

/-- Modelled from the spec: the error taxonomy of §7 (the conditions the
ContentStore surfaces). -/
inductive CMSError where
  | SaveDenied
  | SaveFailed
deriving Repr, DecidableEq

/-- Modelled from the spec: the pending-write marker of §9 ("a value plus a
pending-write marker"); it remembers the id written and the entry's prior
state so a rejection can restore it. -/
structure PendingWrite where
  id : String
  prior : Option ContentRecord
deriving Repr, DecidableEq

/-- Remove the cache entry for `id`, keeping all other entries. -/
def removeId (c : List (String × ContentRecord)) (id : String) :
    List (String × ContentRecord) :=
  c.filter (fun p => p.1 != id)

/-- Replace (or create) the cache entry for `id`. -/
def insertEntry (c : List (String × ContentRecord)) (id : String)
    (r : ContentRecord) : List (String × ContentRecord) :=
  (id, r) :: removeId c id

/-- Modelled from the spec: `get(id)` returns the cached
ContentRecord.value or a caller-supplied fallback if absent (§4.3). -/
def ContentStore.get (s : ContentStore) (id fallback : String) : String :=
  match s.cache.lookup id with
  | some r => r.value
  | none => fallback

/-- Modelled from the spec: `set(id, value)` is permitted only when the
EditModeController is `editing`; otherwise it fails with a
permission-denied condition and touches nothing.  When permitted, the local
cache is updated immediately (optimistic write) and a persistence request —
carrying the pending-write marker — is issued to the external collaborator
(§4.3). -/
def ContentStore.set (mode : Mode) (s : ContentStore) (id v : String)
    (now : Nat) : ContentStore × Except CMSError PendingWrite :=
  match mode with
  | .viewing => (s, .error .SaveDenied)
  | .editing =>
      (⟨insertEntry s.cache id ⟨v, now⟩⟩, .ok ⟨id, s.cache.lookup id⟩)

/-- Modelled from the spec: on remote rejection of a pending write, the
cache entry is rolled back to its prior value and a save-failed condition
is surfaced to the caller (§4.3). -/
def ContentStore.onRemoteRejection (s : ContentStore) (p : PendingWrite) :
    ContentStore × CMSError :=
  (⟨match p.prior with
    | some r => insertEntry s.cache p.id r
    | none => removeId s.cache p.id⟩,
   .SaveFailed)

/-! ## Cache lemmas -/

/-- Looking up an id right after inserting an entry for it finds that
entry. -/
theorem lookup_insertEntry_self (c : List (String × ContentRecord))
    (id : String) (r : ContentRecord) :
    (insertEntry c id r).lookup id = some r := by
  simp [insertEntry, List.lookup]

/-- Removing an id from the cache makes lookups for it miss. -/
theorem lookup_removeId_self (c : List (String × ContentRecord))
    (id : String) :
    (removeId c id).lookup id = none := by
  induction c with
  | nil => rfl
  | cons hd tl ih =>
    obtain ⟨k, v⟩ := hd
    simp only [removeId] at ih ⊢
    by_cases h : k = id
    · subst h
      simp only [List.filter_cons, bne_self_eq_false, Bool.false_eq_true,
        if_false]
      exact ih
    · have hkeep : (k != id) = true := by simpa using h
      have hmiss : (id == k) = false := by simpa using Ne.symm h
      simp only [List.filter_cons, hkeep, if_true, List.lookup, hmiss]
      exact ih

/-! ## Claim theorems -/

/-- C1: the invariant `EditModeFlag implies Identity present` does NOT hold
of the CMSProvider sketched in src/Readme.md: after the event sequence
login, EditToggle click, logout, the observed state has `isEditMode = true`
and `user = none`; moreover the context value exposes `setIsEditMode` even
while no user is present, so edit mode is settable from the initial
(logged-out) state. -/
theorem cmsProvider_editMode_without_identity :
    (cmsRun [.authChange (some "u1"), .toggleClick, .authChange none]).isEditMode = true ∧
    (cmsRun [.authChange (some "u1"), .toggleClick, .authChange none]).user = none ∧
    (cmsStep .init (.setEditMode true)).isEditMode = true ∧
    (cmsStep .init (.setEditMode true)).user = none :=
  ⟨rfl, rfl, rfl, rfl⟩

/-- C2: when edit mode is not active (indeed, unconditionally), `Editable`
renders plain, non-interactive markup: given static children it produces a
static tree, and its output is exactly the static markup for the region —
no editing affordance is observable. -/
theorem editable_not_editing_renders_static (id : String) (cs : List Html)
    (hcs : ∀ c ∈ cs, IsStatic c) :
    IsStatic (Editable id cs) ∧ Editable id cs = staticMarkup id cs := by
  refine ⟨.elem _ _ _ ?_ hcs, rfl⟩
  intro a ha
  simp only [List.mem_singleton] at ha
  subst ha
  show attrIsInteractive "data-cms-id" = false
  decide

/-- Witness for C2 at the README usage `<Editable id="home-title"><h1>My
Static Title</h1></Editable>`. -/
theorem editable_not_editing_renders_static_witness :
    IsStatic (Editable "home-title" [Html.elem "h1" [] [Html.text "My Static Title"]]) ∧
    Editable "home-title" [Html.elem "h1" [] [Html.text "My Static Title"]] =
      staticMarkup "home-title" [Html.elem "h1" [] [Html.text "My Static Title"]] :=
  editable_not_editing_renders_static "home-title"
    [Html.elem "h1" [] [Html.text "My Static Title"]]
    (by
      intro c hc
      simp only [List.mem_singleton] at hc
      subst hc
      refine .elem _ _ _ (by intro a ha; simp at ha) ?_
      intro c hc
      simp only [List.mem_singleton] at hc
      subst hc
      exact .text _)

/-- C3: the `Editable` component does NOT render the ContentStore value:
with a store caching `"New Title"` for id `"home-title"`, the component
still renders the fallback children unchanged (its body is a placeholder
that never consults a store). -/
theorem editable_ignores_store_renders_fallback :
    ContentStore.get ⟨[("home-title", ⟨"New Title", 1⟩)]⟩ "home-title" "My Static Title"
        = "New Title" ∧
    Editable "home-title" [Html.text "My Static Title"]
        = Html.elem "div" [("data-cms-id", "home-title")] [Html.text "My Static Title"] :=
  ⟨rfl, rfl⟩

/-- C4: calling the toggle callback of the README CMSProvider in a state
with no Identity DOES change the mode: `onToggle` (the `EditToggle`
callback body, which the context-exposed `setIsEditMode` makes reachable
without any identity check) transitions viewing to editing from the
logged-out initial state. -/
theorem onToggle_changes_mode_without_identity :
    onToggle ⟨none, false⟩ = ⟨none, true⟩ ∧
    cmsStep ⟨none, false⟩ (.setEditMode true) = ⟨none, true⟩ :=
  ⟨rfl, rfl⟩

/-- C5: a logout notification while the README CMSProvider is in edit mode
does NOT force the mode back to viewing: after login, toggle, logout the
state is `user = none, isEditMode = true`. -/
theorem logout_while_editing_keeps_editMode :
    cmsRun [.authChange (some "admin"), .toggleClick, .authChange none]
      = ⟨none, true⟩ :=
  rfl

/-- C6: `set(id, value)` in any mode other than `editing` fails with
`SaveDenied` and leaves the store unchanged. -/
theorem set_denied_unless_editing (mode : Mode) (s : ContentStore)
    (id v : String) (now : Nat) (h : mode ≠ Mode.editing) :
    ContentStore.set mode s id v now = (s, .error .SaveDenied) := by
  cases mode with
  | viewing => rfl
  | editing => exact absurd rfl h

/-- Witness for C6: `set` while `viewing` on an empty store is denied. -/
theorem set_denied_unless_editing_witness :
    ContentStore.set Mode.viewing ⟨[]⟩ "home-title" "x" 0
      = (⟨[]⟩, .error .SaveDenied) :=
  set_denied_unless_editing Mode.viewing ⟨[]⟩ "home-title" "x" 0 (by decide)

/-- C7: in `editing` mode, `set(id, v)` followed by `get(id)` before any
remote confirmation returns `v` — the optimistic write is immediately
readable. -/
theorem set_then_get_returns_written_value (s : ContentStore)
    (id v : String) (now : Nat) (fb : String) :
    ((ContentStore.set Mode.editing s id v now).1).get id fb = v := by
  simp [ContentStore.set, ContentStore.get, insertEntry, List.lookup]

/-- C8: if the persistence collaborator rejects a pending `set(id, v)`,
rolling back restores the pre-write value — a subsequent `get(id)` returns
what it returned before the write — and a save-failed condition is
surfaced. -/
theorem rejected_set_rolls_back (s : ContentStore) (id v fb : String)
    (now : Nat) (p : PendingWrite)
    (h : (ContentStore.set Mode.editing s id v now).2 = .ok p) :
    (((ContentStore.set Mode.editing s id v now).1).onRemoteRejection p).1.get id fb
        = s.get id fb ∧
    (((ContentStore.set Mode.editing s id v now).1).onRemoteRejection p).2
        = CMSError.SaveFailed := by
  simp only [ContentStore.set] at h
  injection h with h
  subst h
  refine ⟨?_, rfl⟩
  simp only [ContentStore.set, ContentStore.onRemoteRejection, ContentStore.get]
  cases hl : s.cache.lookup id with
  | none => simp [hl, lookup_removeId_self]
  | some r => simp [hl, lookup_insertEntry_self]

/-- Witness for C8 at a concrete rejected write: store empty, write
`"New"` to `"home-title"`, rejection; `get` returns the fallback `"Old"`
again. -/
theorem rejected_set_rolls_back_witness :
    (((ContentStore.set Mode.editing ⟨[]⟩ "home-title" "New" 0).1).onRemoteRejection
        ⟨"home-title", none⟩).1.get "home-title" "Old"
      = ContentStore.get ⟨[]⟩ "home-title" "Old" ∧
    (((ContentStore.set Mode.editing ⟨[]⟩ "home-title" "New" 0).1).onRemoteRejection
        ⟨"home-title", none⟩).2
      = CMSError.SaveFailed :=
  rejected_set_rolls_back ⟨[]⟩ "home-title" "New" "Old" 0 ⟨"home-title", none⟩ rfl

/-- C9: for every id and children, `Editable` renders a single `div`
wrapper whose `data-cms-id` attribute equals the id, whose attribute list
is exactly that one attribute, and whose children are the supplied children
unchanged. -/
theorem editable_renders_tagged_wrapper (id : String) (cs : List Html) :
    (Editable id cs).tagOf = some "div" ∧
    attrValue (Editable id cs).attrsOf "data-cms-id" = some id ∧
    (Editable id cs).attrsOf = [("data-cms-id", id)] ∧
    (Editable id cs).childrenOf = cs :=
  ⟨rfl, rfl, rfl, rfl⟩

/-- C10: the markup `Editable` produces is a function of its props alone:
two renders with equal `id` and `children` yield identical output under any
two surrounding contexts (any authentication or edit-mode state). -/
theorem editable_output_independent_of_context (ctx₁ ctx₂ : CMSContextValue)
    (id : String) (cs : List Html) :
    renderEditable ctx₁ id cs = renderEditable ctx₂ id cs :=
  rfl

end Panhinda
